import Mathlib

/-!
Shallow embedding of the taqo query-optimizer testing framework's core:
the DDL-step selector and report dispatch of src/src/runner.py, the
regression scenario of src/src/tests/regression/scenario.py, and the
sample collector / regression comparator described by the specification
(their code lives outside the shown sources and is modelled from the
spec's words, as marked on each such definition).
-/

namespace Taqo

/-! ### DDL step selector (src/src/runner.py, parse_ddls) -/

/-- DDL lifecycle steps: the config.DDLStep enum referenced by runner.py. -/
inductive DDLStep
  | DATABASE
  | CREATE
  | IMPORT
  | ANALYZE
  | DROP
deriving DecidableEq

/-- Token that parse_ddls scans for, per step. -/
def ddlToken : DDLStep → String
  | DDLStep.DATABASE => "database"
  | DDLStep.CREATE => "create"
  | DDLStep.IMPORT => "import"
  | DDLStep.ANALYZE => "analyze"
  | DDLStep.DROP => "drop"

/-- Python's substring containment test (the in operator on str),
as used by parse_ddls: needle occurs contiguously inside hay. -/
def strContains (hay needle : String) : Prop :=
  needle.toList <:+: hay.toList

instance (hay needle : String) : Decidable (strContains hay needle) := by
  unfold strContains
  infer_instance

/-- parse_ddls from src/src/runner.py lines 20-37: literal "none" yields the
empty set; otherwise each recognized token found as a substring adds its step
(checked in source order database, create, import, drop, analyze); anything
else is ignored. -/
def parse_ddls (ddl_ops : String) : Finset DDLStep :=
  if ddl_ops = "none" then ∅
  else
    (if strContains ddl_ops "database" then ({DDLStep.DATABASE} : Finset DDLStep) else ∅) ∪
    (if strContains ddl_ops "create" then ({DDLStep.CREATE} : Finset DDLStep) else ∅) ∪
    (if strContains ddl_ops "import" then ({DDLStep.IMPORT} : Finset DDLStep) else ∅) ∪
    (if strContains ddl_ops "drop" then ({DDLStep.DROP} : Finset DDLStep) else ∅) ∪
    (if strContains ddl_ops "analyze" then ({DDLStep.ANALYZE} : Finset DDLStep) else ∅)

/-! ### Regression comparator (spec section 4.4; code not under src/) -/

/-- Classification of one query pair by the regression comparator. -/
inductive Classification
  | IMPROVED
  | REGRESSED
  | UNCHANGED
  | SKIPPED
deriving DecidableEq

/-- Per-query aggregate for one version: the retained post-warmup sample
timings and the aggregated timing (spec section 3, QueryResult). Timings are
modelled as exact rationals. -/
structure QueryResult where
  retainedSamples : List ℚ
  timing : ℚ
deriving DecidableEq

/-- Comparator-relevant configuration values (spec section 3). -/
structure CompareConfig where
  skip_percentage_delta : ℚ
  skip_timeout_delta : ℚ
  test_query_timeout : ℚ
deriving DecidableEq

/-- One comparator row: classification plus the percentage delta (none when
the pair was skipped before the delta was computed). -/
structure ComparisonResult where
  classification : Classification
  delta : Option ℚ
deriving DecidableEq

/-- Delta-threshold classification, spec section 4.4 step 3: strictly above
the threshold is REGRESSED, strictly below its negation is IMPROVED,
otherwise UNCHANGED. -/
def classify (thr delta : ℚ) : Classification :=
  if thr < delta then Classification.REGRESSED
  else if delta < -thr then Classification.IMPROVED
  else Classification.UNCHANGED

/-- Modelled from the spec: the Regression Comparator, spec section 4.4
(its code is not under src/). Rules in order: (1) a side with no retained
samples makes the pair SKIPPED; (2) a side whose aggregated timing exceeds
test_query_timeout within skip_timeout_delta tolerance makes the pair
SKIPPED; (3) otherwise delta = (candidate - reference) / reference is
classified against skip_percentage_delta. -/
def compare (cfg : CompareConfig) (ref cand : QueryResult) : ComparisonResult :=
  if ref.retainedSamples = [] ∨ cand.retainedSamples = [] then
    { classification := Classification.SKIPPED, delta := none }
  else if cfg.test_query_timeout - cfg.skip_timeout_delta < ref.timing ∨
      cfg.test_query_timeout - cfg.skip_timeout_delta < cand.timing then
    { classification := Classification.SKIPPED, delta := none }
  else
    { classification :=
        classify cfg.skip_percentage_delta ((cand.timing - ref.timing) / ref.timing),
      delta := some ((cand.timing - ref.timing) / ref.timing) }

/-! ### Sample collector (spec section 4.2 step 2; code not under src/) -/

/-- Outcome of one physical timed execution: a timing, or an error. -/
inductive RunOutcome
  | ok (t : ℚ)
  | err
deriving DecidableEq

/-- Modelled from the spec: the post-warmup measurement slots of the Sample
Collector, spec section 4.2 step 2 (calculate_avg_execution_time in utils is
not under src/). The stream runs gives the outcome of the k-th physical
execution. Each of r slots executes once; an errored execution is retried
once; a sample failing twice fails the query and stops collection. Returns
(number of executions issued, retained sample timings, failed flag). -/
def runSlots (runs : Nat → RunOutcome) (k r : Nat) : Nat × List ℚ × Bool :=
  match r with
  | 0 => (0, [], false)
  | r + 1 =>
    match runs k with
    | RunOutcome.ok t =>
      let p := runSlots runs (k + 1) r
      (p.1 + 1, t :: p.2.1, p.2.2)
    | RunOutcome.err =>
      match runs (k + 1) with
      | RunOutcome.ok t =>
        let p := runSlots runs (k + 2) r
        (p.1 + 2, t :: p.2.1, p.2.2)
      | RunOutcome.err => (2, [], true)

/-- Aggregate outcome of collecting one query. -/
structure CollectResult where
  issued : Nat
  retained : List ℚ
  failed : Bool
deriving DecidableEq

/-- Modelled from the spec: the Sample Collector's timed-execution phase,
spec section 4.2 step 2 (code not under src/): w warmup executions whose
samples are discarded unconditionally, then r measurement slots with
retry-once semantics. -/
def collect (w r : Nat) (runs : Nat → RunOutcome) : CollectResult :=
  let p := runSlots runs w r
  { issued := w + p.1, retained := p.2.1, failed := p.2.2 }

/-- Number of errored executions among the n stream positions starting at
position k: each such error is a sample's failed first try (or failed
retry), used to count the retry executions the collector adds. -/
def errCount (runs : Nat → RunOutcome) (k n : Nat) : Nat :=
  match n with
  | 0 => 0
  | n + 1 => (if runs k = RunOutcome.err then 1 else 0) + errCount runs (k + 1) n

/-! ### Regression scenario (src/src/tests/regression/scenario.py) -/

/-- Outcome of evaluating one query in a collection phase: the body of the
per-query try in evaluate_queries_for_version either completes or raises. -/
inductive QOutcome
  | ok
  | raise
deriving DecidableEq

/-- Observable events of one run of RegressionTest.evaluate. Connections
are numbered by the order connect_to_db opens them (1 then 2), modelling
object identity of the fresh connection objects. -/
inductive Event
  | startDb
  | connectFail
  | connect (id : Nat)
  | selectVersion (id : Nat)
  | createTables
  | getQueries
  | evalQuery (conn : Nat) (q : Nat)
  | closeConn (id : Nat)
  | switchFail
  | switchVersion
  | defineVersion
  | addQuery (q1 q2 : Nat)
  | buildReport
  | publishReport
  | closeNoneError
  | stopDb
deriving DecidableEq

/-- Environment of one scenario run: which fallible steps succeed, the
model's query list (by id), and each query's per-phase outcome. -/
structure Env where
  connect1Ok : Bool
  connect2Ok : Bool
  switchOk : Bool
  queries : List Nat
  v1out : Nat → QOutcome
  v2out : Nat → QOutcome

/-- RegressionTest.evaluate_queries_for_version, scenario.py lines 14-38:
iterates the query list in order on the given connection; a successful query
is appended to the returned list; an exception is re-raised (except
Exception as e: raise e), ending the loop. Returns the trace of attempted
evaluations and either the collected results or the propagated error. -/
def evaluate_queries_for_version (conn : Nat) (out : Nat → QOutcome) :
    List Nat → List Event × Except Unit (List Nat)
  | [] => ([], Except.ok [])
  | q :: rest =>
    match out q with
    | QOutcome.ok =>
      let p := evaluate_queries_for_version conn out rest
      (Event.evalQuery conn q :: p.1, Except.map (fun l => q :: l) p.2)
    | QOutcome.raise => ([Event.evalQuery conn q], Except.error ())

/-- Pairing of the two versions' result lists for the report, scenario.py
lines 74-76: zip(first_version_queries, second_version_queries). -/
def pairForReport (v1res v2res : List Nat) : List (Nat × Nat) :=
  v1res.zip v2res

/-- Body of the try block of RegressionTest.evaluate, scenario.py lines
45-76: connect (conn variable becomes connection 1), read version, create
tables, get queries, evaluate them for version 1, close the connection,
switch version, reconnect (connection 2), read version, define versions in
the report, evaluate for version 2, then add zipped pairs to the report.
Returns (trace, final value of the conn variable, completed-without-error). -/
def evalBody (env : Env) : List Event × Option Nat × Bool :=
  if env.connect1Ok then
    let p1 := evaluate_queries_for_version 1 env.v1out env.queries
    let pre := Event.connect 1 :: Event.selectVersion 1 :: Event.createTables ::
      Event.getQueries :: p1.1
    match p1.2 with
    | Except.error _ => (pre, some 1, false)
    | Except.ok v1res =>
      if env.switchOk then
        if env.connect2Ok then
          let p2 := evaluate_queries_for_version 2 env.v2out env.queries
          let pre2 := pre ++ Event.closeConn 1 :: Event.switchVersion ::
            Event.connect 2 :: Event.selectVersion 2 :: Event.defineVersion :: p2.1
          match p2.2 with
          | Except.error _ => (pre2, some 2, false)
          | Except.ok v2res =>
            (pre2 ++ (pairForReport v1res v2res).map (fun p => Event.addQuery p.1 p.2),
              some 2, true)
        else (pre ++ [Event.closeConn 1, Event.switchVersion, Event.connectFail],
          some 1, false)
      else (pre ++ [Event.closeConn 1, Event.switchFail], some 1, false)
  else ([Event.connectFail], none, false)

/-- RegressionTest.evaluate, scenario.py lines 40-86: start_db, conn = None,
then the try body, then the finally block: build_report, publish_report,
conn.close(), stop_db(). When the conn variable is still None, conn.close()
raises AttributeError (None has no close attribute), so stop_db is never
reached; otherwise the current connection is closed and the database
stopped. The Bool is true iff evaluate returned without an exception. -/
def evaluate (env : Env) : List Event × Bool :=
  let b := evalBody env
  match b.2.1 with
  | none =>
    (Event.startDb :: b.1 ++ [Event.buildReport, Event.publishReport, Event.closeNoneError],
      false)
  | some c =>
    (Event.startDb :: b.1 ++ [Event.buildReport, Event.publishReport,
      Event.closeConn c, Event.stopDb], b.2.2)

/-! ### Report dispatch (src/src/runner.py lines 282-335) -/

/-- Report kinds handled by the dispatch chain of runner.py. -/
inductive ReportType
  | taqo
  | score
  | score_xls
  | regression
  | regression_xls
  | comparison
  | selectivity
deriving DecidableEq

/-- The report type strings accepted by the dispatch chain. -/
def knownReportTypes : List String :=
  ["taqo", "score", "score_xls", "regression", "regression_xls", "comparison", "selectivity"]

/-- Report dispatch of runner.py lines 282-335: the elif chain over the
--type argument in source order; the final else raises before any loading
or report generation happens. An ok value is the selected report work; the
error models the raised exception. -/
def reportDispatch (t : String) : Except String ReportType :=
  if t = "taqo" then Except.ok ReportType.taqo
  else if t = "score" then Except.ok ReportType.score
  else if t = "score_xls" then Except.ok ReportType.score_xls
  else if t = "regression" then Except.ok ReportType.regression
  else if t = "regression_xls" then Except.ok ReportType.regression_xls
  else if t = "comparison" then Except.ok ReportType.comparison
  else if t = "selectivity" then Except.ok ReportType.selectivity
  else Except.error "Unknown test type defined"

/-! ### Concrete inputs used by counterexamples and witnesses -/

/-- Query outcomes where query 0 raises and all others succeed. -/
def c1out : Nat → QOutcome := fun q => if q = 0 then QOutcome.raise else QOutcome.ok

/-- Scenario environment whose first collection phase hits a raising query. -/
def envC1 : Env :=
  { connect1Ok := true, connect2Ok := true, switchOk := true,
    queries := [0, 1], v1out := c1out, v2out := fun _ => QOutcome.ok }

/-- Scenario environment whose initial connection attempt fails. -/
def envC2 : Env :=
  { connect1Ok := false, connect2Ok := true, switchOk := true,
    queries := [], v1out := fun _ => QOutcome.ok, v2out := fun _ => QOutcome.ok }

/-- Fully successful scenario environment over a single query. -/
def envOk : Env :=
  { connect1Ok := true, connect2Ok := true, switchOk := true,
    queries := [0], v1out := fun _ => QOutcome.ok, v2out := fun _ => QOutcome.ok }

/-- Execution stream whose second physical execution errs, all others run
in one time unit. -/
def c3runs : Nat → RunOutcome := fun k => if k = 1 then RunOutcome.err else RunOutcome.ok 1

/-- Execution stream where every physical execution succeeds. -/
def allOkRuns : Nat → RunOutcome := fun _ => RunOutcome.ok 1

/-- Comparator configuration with a 5 percent threshold, one-second timeout
tolerance, and a 1200-second query timeout (the documented defaults). -/
def cfgW : CompareConfig :=
  { skip_percentage_delta := 1/20, skip_timeout_delta := 1, test_query_timeout := 1200 }

/-- Reference result timed at 1. -/
def qA : QueryResult := { retainedSamples := [1], timing := 1 }

/-- Candidate result timed at 1.052, strictly more than 5 percent above qA. -/
def qB : QueryResult := { retainedSamples := [263/250], timing := 263/250 }

/-- Candidate result timed at 2, twice qA. -/
def qD : QueryResult := { retainedSamples := [2], timing := 2 }

/-- Reference result timed at 100. -/
def qRef100 : QueryResult := { retainedSamples := [100], timing := 100 }

/-- Candidate result timed at 105, exactly 5 percent above qRef100. -/
def qCand105 : QueryResult := { retainedSamples := [105], timing := 105 }

/-- Reference result whose timing 5000 is far beyond the 1200 timeout. -/
def qTimeoutRef : QueryResult := { retainedSamples := [5000], timing := 5000 }

/-- Fast candidate result timed at 1. -/
def qFastCand : QueryResult := { retainedSamples := [1], timing := 1 }

end Taqo

namespace Taqo

/-! ### Helper lemmas -/

theorem mem_ite_singleton {α : Type} [DecidableEq α] (c : Prop) [Decidable c] (x a : α) :
    (a ∈ if c then ({x} : Finset α) else ∅) ↔ c ∧ a = x := by
  split_ifs with h <;> simp [h]

theorem classify_eq_REGRESSED {thr delta : ℚ} (h : 0 ≤ thr) :
    classify thr delta = Classification.REGRESSED ↔ thr < delta := by
  unfold classify
  split_ifs with h1 h2
  · simpa using h1
  · constructor
    · intro hx; simp at hx
    · intro hx; exfalso; linarith
  · constructor
    · intro hx; simp at hx
    · intro hx; exact absurd hx h1

theorem classify_eq_IMPROVED {thr delta : ℚ} (h : 0 ≤ thr) :
    classify thr delta = Classification.IMPROVED ↔ delta < -thr := by
  unfold classify
  split_ifs with h1 h2
  · constructor
    · intro hx; simp at hx
    · intro hx; exfalso; linarith
  · simpa using h2
  · constructor
    · intro hx; simp at hx
    · intro hx; exact absurd hx h2

theorem classify_eq_UNCHANGED {thr delta : ℚ} :
    classify thr delta = Classification.UNCHANGED ↔ -thr ≤ delta ∧ delta ≤ thr := by
  unfold classify
  split_ifs with h1 h2
  · constructor
    · intro hx; simp at hx
    · rintro ⟨ha, hb⟩; exfalso; linarith
  · constructor
    · intro hx; simp at hx
    · rintro ⟨ha, hb⟩; exfalso; linarith
  · constructor
    · intro _; exact ⟨by linarith, by linarith⟩
    · intro _; rfl

theorem classify_neg_cases {thr delta : ℚ} (h : 0 ≤ thr) (hd : delta < 0) :
    classify thr delta = Classification.IMPROVED ∨
      classify thr delta = Classification.UNCHANGED := by
  unfold classify
  split_ifs with h1 h2
  · exfalso; linarith
  · exact Or.inl rfl
  · exact Or.inr rfl

theorem classify_pos_cases {thr delta : ℚ} (h : 0 ≤ thr) (hd : 0 < delta) :
    classify thr delta = Classification.REGRESSED ∨
      classify thr delta = Classification.UNCHANGED := by
  unfold classify
  split_ifs with h1 h2
  · exact Or.inl rfl
  · exfalso; linarith
  · exact Or.inr rfl

theorem compare_of_not_skipped {cfg : CompareConfig} {ref cand : QueryResult}
    (h : (compare cfg ref cand).classification ≠ Classification.SKIPPED) :
    compare cfg ref cand =
      { classification :=
          classify cfg.skip_percentage_delta ((cand.timing - ref.timing) / ref.timing),
        delta := some ((cand.timing - ref.timing) / ref.timing) } := by
  unfold compare at h ⊢
  split_ifs at h ⊢ with h1 h2
  · simp at h
  · simp at h
  · rfl

/-! ### Claim theorems for the comparator -/

/-- C4 counterexample: with the default thresholds, reference timing 1 and
candidate timing 263/250 (a 5.2 percent slowdown), compare(A,B) is REGRESSED
with delta 13/250, yet compare(B,A) is UNCHANGED (not the inverse IMPROVED)
and its delta -13/263 is not the exact negation -13/250: swapping divides by
the other side's timing. -/
theorem C4_counterexample :
    (compare cfgW qA qB).classification = Classification.REGRESSED ∧
    (compare cfgW qB qA).classification = Classification.UNCHANGED ∧
    (compare cfgW qA qB).delta = some (13/250) ∧
    (compare cfgW qB qA).delta = some (-13/263) ∧
    ¬((-13 : ℚ)/263 = -(13/250)) := by
  norm_num [compare, classify, cfgW, qA, qB]

/-- C4 (amended): for non-SKIPPED pairs with positive timings and a
nonnegative threshold, swapping reference and candidate scales the negated
delta by reference/candidate (so the sign is inverted, the exact negation
only when the timings agree), and never preserves a strict classification:
a REGRESSED pair swaps to IMPROVED or UNCHANGED, an IMPROVED pair swaps to
REGRESSED or UNCHANGED. -/
theorem C4_swap_behaviour (cfg : CompareConfig) (A B : QueryResult)
    (hthr : 0 ≤ cfg.skip_percentage_delta) (hA : 0 < A.timing) (hB : 0 < B.timing)
    (hAB : (compare cfg A B).classification ≠ Classification.SKIPPED)
    (hBA : (compare cfg B A).classification ≠ Classification.SKIPPED) :
    (compare cfg B A).delta =
      some (-((B.timing - A.timing) / A.timing) * (A.timing / B.timing)) ∧
    ((compare cfg A B).classification = Classification.REGRESSED →
      (compare cfg B A).classification = Classification.IMPROVED ∨
      (compare cfg B A).classification = Classification.UNCHANGED) ∧
    ((compare cfg A B).classification = Classification.IMPROVED →
      (compare cfg B A).classification = Classification.REGRESSED ∨
      (compare cfg B A).classification = Classification.UNCHANGED) := by
  have hAeq := compare_of_not_skipped hAB
  have hBeq := compare_of_not_skipped hBA
  have hA0 : A.timing ≠ 0 := ne_of_gt hA
  have hB0 : B.timing ≠ 0 := ne_of_gt hB
  have hdelta : (A.timing - B.timing) / B.timing =
      -((B.timing - A.timing) / A.timing) * (A.timing / B.timing) := by
    field_simp
  have hclsA : (compare cfg A B).classification =
      classify cfg.skip_percentage_delta ((B.timing - A.timing) / A.timing) := by
    rw [hAeq]
  have hclsB : (compare cfg B A).classification =
      classify cfg.skip_percentage_delta ((A.timing - B.timing) / B.timing) := by
    rw [hBeq]
  refine ⟨by rw [hBeq, ← hdelta], ?_, ?_⟩
  · intro hr
    rw [hclsA] at hr
    have hlt : cfg.skip_percentage_delta < (B.timing - A.timing) / A.timing :=
      (classify_eq_REGRESSED hthr).mp hr
    have hsub : 0 < B.timing - A.timing := by
      have h0 : (0 : ℚ) < (B.timing - A.timing) / A.timing := lt_of_le_of_lt hthr hlt
      by_contra hcon
      push_neg at hcon
      have : (B.timing - A.timing) / A.timing ≤ 0 :=
        div_nonpos_of_nonpos_of_nonneg hcon (le_of_lt hA)
      linarith
    have hneg : (A.timing - B.timing) / B.timing < 0 :=
      div_neg_of_neg_of_pos (by linarith) hB
    rw [hclsB]
    exact classify_neg_cases hthr hneg
  · intro hr
    rw [hclsA] at hr
    have hlt : (B.timing - A.timing) / A.timing < -cfg.skip_percentage_delta :=
      (classify_eq_IMPROVED hthr).mp hr
    have hsub : B.timing - A.timing < 0 := by
      have h0 : (B.timing - A.timing) / A.timing < 0 := by linarith
      by_contra hcon
      push_neg at hcon
      have : 0 ≤ (B.timing - A.timing) / A.timing :=
        div_nonneg hcon (le_of_lt hA)
      linarith
    have hpos : 0 < (A.timing - B.timing) / B.timing :=
      div_pos (by linarith) hB
    rw [hclsB]
    exact classify_pos_cases hthr hpos

/-- C4 witness: reference timing 1 against candidate timing 2. -/
theorem C4_swap_behaviour_witness :
    (compare cfgW qD qA).delta =
      some (-((qD.timing - qA.timing) / qA.timing) * (qA.timing / qD.timing)) ∧
    ((compare cfgW qA qD).classification = Classification.REGRESSED →
      (compare cfgW qD qA).classification = Classification.IMPROVED ∨
      (compare cfgW qD qA).classification = Classification.UNCHANGED) ∧
    ((compare cfgW qA qD).classification = Classification.IMPROVED →
      (compare cfgW qD qA).classification = Classification.REGRESSED ∨
      (compare cfgW qD qA).classification = Classification.UNCHANGED) :=
  C4_swap_behaviour cfgW qA qD (by norm_num [cfgW]) (by norm_num [qA]) (by norm_num [qD])
    (by norm_num [compare, classify, cfgW, qA, qD]; decide)
    (by norm_num [compare, classify, cfgW, qA, qD]; decide)

/-- C5: for a non-SKIPPED pair with positive reference timing and a
nonnegative threshold, the classification is REGRESSED exactly when the
delta strictly exceeds skip_percentage_delta, IMPROVED exactly when it is
strictly below its negation, and UNCHANGED otherwise; with the default
threshold 1/20, a candidate at exactly 21/20 of the reference is UNCHANGED
while any strictly larger timing is REGRESSED. -/
theorem C5_strict_threshold (cfg : CompareConfig) (ref cand : QueryResult)
    (hthr : 0 ≤ cfg.skip_percentage_delta) (hpos : 0 < ref.timing)
    (hns : (compare cfg ref cand).classification ≠ Classification.SKIPPED) :
    ((compare cfg ref cand).classification = Classification.REGRESSED ↔
      cfg.skip_percentage_delta < (cand.timing - ref.timing) / ref.timing) ∧
    ((compare cfg ref cand).classification = Classification.IMPROVED ↔
      (cand.timing - ref.timing) / ref.timing < -cfg.skip_percentage_delta) ∧
    ((compare cfg ref cand).classification = Classification.UNCHANGED ↔
      -cfg.skip_percentage_delta ≤ (cand.timing - ref.timing) / ref.timing ∧
        (cand.timing - ref.timing) / ref.timing ≤ cfg.skip_percentage_delta) ∧
    (cfg.skip_percentage_delta = 1/20 →
      (cand.timing = ref.timing * (21/20) →
        (compare cfg ref cand).classification = Classification.UNCHANGED) ∧
      (ref.timing * (21/20) < cand.timing →
        (compare cfg ref cand).classification = Classification.REGRESSED)) := by
  have h0 : ref.timing ≠ 0 := ne_of_gt hpos
  have hcls : (compare cfg ref cand).classification =
      classify cfg.skip_percentage_delta ((cand.timing - ref.timing) / ref.timing) := by
    rw [compare_of_not_skipped hns]
  rw [hcls]
  refine ⟨classify_eq_REGRESSED hthr, classify_eq_IMPROVED hthr, classify_eq_UNCHANGED, ?_⟩
  intro hd
  constructor
  · intro hc
    have hdval : (cand.timing - ref.timing) / ref.timing = 1/20 := by
      rw [hc]
      field_simp
      ring
    rw [hdval, hd, classify_eq_UNCHANGED]
    norm_num
  · intro hc
    have hdval : (1 : ℚ)/20 < (cand.timing - ref.timing) / ref.timing := by
      rw [lt_div_iff₀ hpos]
      linarith
    rw [hd, classify_eq_REGRESSED (by norm_num)]
    exact hdval

/-- C5 witness: reference timing 100, candidate timing 105, exactly 5
percent slower, classified UNCHANGED. -/
theorem C5_strict_threshold_witness :
    ((compare cfgW qRef100 qCand105).classification = Classification.REGRESSED ↔
      cfgW.skip_percentage_delta < (qCand105.timing - qRef100.timing) / qRef100.timing) ∧
    ((compare cfgW qRef100 qCand105).classification = Classification.IMPROVED ↔
      (qCand105.timing - qRef100.timing) / qRef100.timing < -cfgW.skip_percentage_delta) ∧
    ((compare cfgW qRef100 qCand105).classification = Classification.UNCHANGED ↔
      -cfgW.skip_percentage_delta ≤ (qCand105.timing - qRef100.timing) / qRef100.timing ∧
        (qCand105.timing - qRef100.timing) / qRef100.timing ≤ cfgW.skip_percentage_delta) ∧
    (cfgW.skip_percentage_delta = 1/20 →
      (qCand105.timing = qRef100.timing * (21/20) →
        (compare cfgW qRef100 qCand105).classification = Classification.UNCHANGED) ∧
      (qRef100.timing * (21/20) < qCand105.timing →
        (compare cfgW qRef100 qCand105).classification = Classification.REGRESSED)) :=
  C5_strict_threshold cfgW qRef100 qCand105 (by norm_num [cfgW]) (by norm_num [qRef100])
    (by norm_num [compare, classify, cfgW, qRef100, qCand105]; decide)

/-- C6: whenever either side's aggregated timing exceeds test_query_timeout
within the skip_timeout_delta tolerance, the pair is SKIPPED, whatever the
two timings' percentage delta is: the timeout rule precedes the delta rule. -/
theorem C6_timeout_precedence (cfg : CompareConfig) (ref cand : QueryResult)
    (h : cfg.test_query_timeout - cfg.skip_timeout_delta < ref.timing ∨
        cfg.test_query_timeout - cfg.skip_timeout_delta < cand.timing) :
    (compare cfg ref cand).classification = Classification.SKIPPED := by
  unfold compare
  split_ifs with h1
  · rfl
  · rfl

/-- C6 witness: reference timing 5000 is far beyond the 1200-second timeout
while the candidate runs in 1; the pair is SKIPPED, not IMPROVED. -/
theorem C6_timeout_precedence_witness :
    (compare cfgW qTimeoutRef qFastCand).classification = Classification.SKIPPED :=
  C6_timeout_precedence cfgW qTimeoutRef qFastCand (Or.inl (by norm_num [cfgW, qTimeoutRef]))

end Taqo

namespace Taqo

/-- C7: parse_ddls maps the literal "none" to the empty step set, and any
other string to exactly the set of steps whose token occurs as a substring
of the input; it is total, so unrecognized tokens are silently ignored and
no step is ever added whose token is absent. -/
theorem C7_parse_ddls_exact :
    parse_ddls "none" = ∅ ∧
    ∀ (s : String) (st : DDLStep),
      st ∈ parse_ddls s ↔ s ≠ "none" ∧ strContains s (ddlToken st) := by
  constructor
  · simp [parse_ddls]
  · intro s st
    by_cases h : s = "none"
    · subst h
      simp [parse_ddls]
    · simp only [parse_ddls, if_neg h, Finset.mem_union, mem_ite_singleton]
      cases st <;> simp [ddlToken, h]

/-- C8: a report type outside the recognized list makes the dispatch chain
raise its terminal error without selecting any report work. -/
theorem C8_unknown_type_fatal (t : String) (h : t ∉ knownReportTypes) :
    reportDispatch t = Except.error "Unknown test type defined" ∧
    ∀ w : ReportType, reportDispatch t ≠ Except.ok w := by
  simp only [knownReportTypes, List.mem_cons, List.not_mem_nil, or_false, not_or] at h
  obtain ⟨h1, h2, h3, h4, h5, h6, h7⟩ := h
  unfold reportDispatch
  split_ifs <;> simp_all

/-- C8 witness: the unrecognized report type bogus. -/
theorem C8_unknown_type_fatal_witness :
    reportDispatch "bogus" = Except.error "Unknown test type defined" ∧
    ∀ w : ReportType, reportDispatch "bogus" ≠ Except.ok w :=
  C8_unknown_type_fatal "bogus" (by decide)

end Taqo

namespace Taqo

/-! ### Scenario helper lemmas -/

theorem eqfv_ok_results {c : Nat} {out : Nat → QOutcome} {qs l : List Nat}
    (h : (evaluate_queries_for_version c out qs).2 = Except.ok l) :
    l = qs ∧ (evaluate_queries_for_version c out qs).1 = qs.map (Event.evalQuery c) := by
  induction qs generalizing l with
  | nil =>
    simp only [evaluate_queries_for_version] at h ⊢
    cases h
    simp
  | cons q rest ih =>
    cases hq : out q with
    | ok =>
      simp only [evaluate_queries_for_version, hq] at h ⊢
      cases hp : (evaluate_queries_for_version c out rest).2 with
      | error e =>
        rw [hp] at h
        simp [Except.map] at h
      | ok l2 =>
        rw [hp] at h
        simp only [Except.map, Except.ok.injEq] at h
        obtain ⟨h1, h2⟩ := ih hp
        subst h1
        constructor
        · exact h.symm
        · simp [h2]
    | raise =>
      simp [evaluate_queries_for_version, hq] at h

theorem eqfv_events {c : Nat} {out : Nat → QOutcome} {qs : List Nat} :
    ∀ e ∈ (evaluate_queries_for_version c out qs).1, ∃ q, e = Event.evalQuery c q := by
  induction qs with
  | nil =>
    intro e he
    simp [evaluate_queries_for_version] at he
  | cons q rest ih =>
    intro e he
    cases hq : out q with
    | ok =>
      simp only [evaluate_queries_for_version, hq] at he
      rcases List.mem_cons.mp he with h | h
      · exact ⟨q, h⟩
      · exact ih e h
    | raise =>
      simp [evaluate_queries_for_version, hq] at he
      exact ⟨q, he⟩

theorem pairForReport_get?_eq {v1res v2res : List Nat} {i a b : Nat}
    (h1 : v1res.get? i = some a) (h2 : v2res.get? i = some b) :
    (pairForReport v1res v2res).get? i = some (a, b) := by
  induction v1res generalizing v2res i with
  | nil => simp at h1
  | cons x xs ih =>
    cases v2res with
    | nil => simp at h2
    | cons y ys =>
      cases i with
      | zero =>
        simp only [List.get?] at h1 h2
        cases h1
        cases h2
        rfl
      | succ n =>
        simp only [List.get?] at h1 h2
        exact ih h1 h2

theorem pairForReport_get?_none {v1res v2res : List Nat} {i : Nat}
    (h : v1res.length ≤ i ∨ v2res.length ≤ i) :
    (pairForReport v1res v2res).get? i = none := by
  rw [List.get?_eq_none]
  simp only [pairForReport, List.length_zip]
  omega

/-! ### Claim theorems for the scenario -/

/-- C1 counterexample: with two queries where the first raises, the
collection loop re-raises after the first attempt: no failed result is
recorded, the second query is never evaluated, and the scenario run ends in
failure instead of proceeding. -/
theorem C1_counterexample :
    evaluate_queries_for_version 1 c1out [0, 1] = ([Event.evalQuery 1 0], Except.error ()) ∧
    Event.evalQuery 1 1 ∉ (evaluate envC1).1 ∧
    (evaluate envC1).2 = false := by
  refine ⟨rfl, by decide, by decide⟩

/-- C1 (amended): when the i-th query of a collection phase raises and all
earlier queries succeed, evaluate_queries_for_version re-raises the error:
it returns no result list, and its trace shows exactly the first i+1
queries attempted, so the remaining queries of the batch are never
evaluated and the collection phase aborts. -/
theorem C1_batch_aborts (c : Nat) (out : Nat → QOutcome) (qs : List Nat) (i q : Nat)
    (hq : qs.get? i = some q) (hraise : out q = QOutcome.raise)
    (hbefore : ∀ j p, j < i → qs.get? j = some p → out p = QOutcome.ok) :
    (evaluate_queries_for_version c out qs).2 = Except.error () ∧
    (evaluate_queries_for_version c out qs).1 =
      (qs.take (i + 1)).map (Event.evalQuery c) := by
  induction qs generalizing i with
  | nil => simp at hq
  | cons x rest ih =>
    cases i with
    | zero =>
      simp only [List.get?, Option.some.injEq] at hq
      subst hq
      simp [evaluate_queries_for_version, hraise]
    | succ n =>
      have hx : out x = QOutcome.ok := hbefore 0 x (Nat.succ_pos n) rfl
      simp only [List.get?] at hq
      have hb2 : ∀ j p, j < n → rest.get? j = some p → out p = QOutcome.ok := by
        intro j p hj hp
        exact hbefore (j + 1) p (Nat.succ_lt_succ hj) hp
      obtain ⟨h1, h2⟩ := ih n hq hb2
      simp [evaluate_queries_for_version, hx, h1, h2, Except.map]

/-- C1 witness: query list with ids 5 then 0, where only id 0 raises. -/
theorem C1_batch_aborts_witness :
    (evaluate_queries_for_version 1 c1out [5, 0]).2 = Except.error () ∧
    (evaluate_queries_for_version 1 c1out [5, 0]).1 =
      (([5, 0] : List Nat).take 2).map (Event.evalQuery 1) :=
  C1_batch_aborts 1 c1out [5, 0] 1 0 rfl rfl (by
    intro j p hj hp
    interval_cases j
    simp only [List.get?, Option.some.injEq] at hp
    subst hp
    rfl)

/-- C2: when the initial connection attempt fails, the conn variable is
still None in the finally block, so conn.close() raises AttributeError
after the report steps and stop_db is never reached: teardown is skipped on
this exit path, contradicting the guaranteed-teardown claim. -/
theorem C2_teardown_skipped :
    (evaluate envC2).1 =
      [Event.startDb, Event.connectFail, Event.buildReport, Event.publishReport,
        Event.closeNoneError] ∧
    Event.stopDb ∉ (evaluate envC2).1 ∧
    (evaluate envC2).2 = false := by
  refine ⟨by decide, by decide, by decide⟩

end Taqo

namespace Taqo

/-- C9: whenever the scenario reaches the version switch (first connection
succeeded, all version-1 queries evaluated, switch and reconnect succeed),
every version-1 result is materialized (one per query, in order) and every
version-1 evaluation event precedes the closing of connection 1, which
precedes the version switch, which precedes the opening of connection 2;
every query evaluation after that point uses connection 2, never the
version-1 connection 1. -/
theorem C9_phase_ordering (env : Env) (v1res : List Nat)
    (hc1 : env.connect1Ok = true)
    (h1 : (evaluate_queries_for_version 1 env.v1out env.queries).2 = Except.ok v1res)
    (hsw : env.switchOk = true) (hc2 : env.connect2Ok = true) :
    v1res = env.queries ∧
    ∃ rest : List Event,
      (evaluate env).1 =
        Event.startDb :: Event.connect 1 :: Event.selectVersion 1 :: Event.createTables ::
          Event.getQueries :: (env.queries.map (Event.evalQuery 1) ++
            Event.closeConn 1 :: Event.switchVersion :: Event.connect 2 :: rest) ∧
      ∀ c q, Event.evalQuery c q ∈ rest → c = 2 ∧ c ≠ 1 := by
  obtain ⟨hres, htr⟩ := eqfv_ok_results h1
  refine ⟨hres, ?_⟩
  cases hp2 : (evaluate_queries_for_version 2 env.v2out env.queries).2 with
  | error e =>
    refine ⟨Event.selectVersion 2 :: Event.defineVersion ::
      ((evaluate_queries_for_version 2 env.v2out env.queries).1 ++
        [Event.buildReport, Event.publishReport, Event.closeConn 2, Event.stopDb]), ?_, ?_⟩
    · simp [evaluate, evalBody, hc1, hsw, hc2, h1, hp2, htr]
    · intro c q hm
      rcases List.mem_cons.mp hm with h | hm2
      · exact absurd h (by simp)
      rcases List.mem_cons.mp hm2 with h | hm3
      · exact absurd h (by simp)
      rcases List.mem_append.mp hm3 with h | h
      · obtain ⟨q2, hq2⟩ := eqfv_events _ h
        cases hq2
        exact ⟨rfl, by omega⟩
      · simp at h
  | ok v2res =>
    refine ⟨Event.selectVersion 2 :: Event.defineVersion ::
      ((evaluate_queries_for_version 2 env.v2out env.queries).1 ++
        (pairForReport v1res v2res).map (fun p => Event.addQuery p.1 p.2) ++
        [Event.buildReport, Event.publishReport, Event.closeConn 2, Event.stopDb]), ?_, ?_⟩
    · simp [evaluate, evalBody, hc1, hsw, hc2, h1, hp2, htr]
    · intro c q hm
      rcases List.mem_cons.mp hm with h | hm2
      · exact absurd h (by simp)
      rcases List.mem_cons.mp hm2 with h | hm3
      · exact absurd h (by simp)
      rcases List.mem_append.mp hm3 with hm4 | h
      · rcases List.mem_append.mp hm4 with h | h
        · obtain ⟨q2, hq2⟩ := eqfv_events _ h
          cases hq2
          exact ⟨rfl, by omega⟩
        · obtain ⟨p, _, hp⟩ := List.mem_map.mp h
          exact absurd hp (by simp)
      · simp at h

/-- C9 witness: the fully successful single-query scenario. -/
theorem C9_phase_ordering_witness :
    ([0] : List Nat) = envOk.queries ∧
    ∃ rest : List Event,
      (evaluate envOk).1 =
        Event.startDb :: Event.connect 1 :: Event.selectVersion 1 :: Event.createTables ::
          Event.getQueries :: (envOk.queries.map (Event.evalQuery 1) ++
            Event.closeConn 1 :: Event.switchVersion :: Event.connect 2 :: rest) ∧
      ∀ c q, Event.evalQuery c q ∈ rest → c = 2 ∧ c ≠ 1 :=
  C9_phase_ordering envOk [0] rfl rfl rfl rfl

/-- C10: in every fully successful scenario run, the two collection phases
evaluate the same query list in the same order (the trace holds the same
query sequence under connection 1 and again under connection 2), and the
reported pairs are exactly zip of the two result lists; the zip pairing is
strictly positional: position i of both lists is paired for every i below
the shorter length, and positions beyond the shorter list are dropped. -/
theorem C10_positional_pairing (env : Env) (h : (evaluate env).2 = true) :
    (∃ pre mid post,
      (evaluate env).1 =
        pre ++ env.queries.map (Event.evalQuery 1) ++ mid ++
          env.queries.map (Event.evalQuery 2) ++
          (pairForReport env.queries env.queries).map (fun p => Event.addQuery p.1 p.2) ++
          post) ∧
    (∀ (v1res v2res : List Nat) (i a b : Nat),
      v1res.get? i = some a → v2res.get? i = some b →
      (pairForReport v1res v2res).get? i = some (a, b)) ∧
    (∀ (v1res v2res : List Nat) (i : Nat),
      v1res.length ≤ i ∨ v2res.length ≤ i →
      (pairForReport v1res v2res).get? i = none) := by
  refine ⟨?_, fun v1res v2res i a b h1 h2 => pairForReport_get?_eq h1 h2,
    fun v1res v2res i hle => pairForReport_get?_none hle⟩
  cases hc1 : env.connect1Ok with
  | false => simp [evaluate, evalBody, hc1] at h
  | true =>
    cases hp1 : (evaluate_queries_for_version 1 env.v1out env.queries).2 with
    | error e => simp [evaluate, evalBody, hc1, hp1] at h
    | ok v1res =>
      cases hsw : env.switchOk with
      | false => simp [evaluate, evalBody, hc1, hp1, hsw] at h
      | true =>
        cases hc2 : env.connect2Ok with
        | false => simp [evaluate, evalBody, hc1, hp1, hsw, hc2] at h
        | true =>
          cases hp2 : (evaluate_queries_for_version 2 env.v2out env.queries).2 with
          | error e => simp [evaluate, evalBody, hc1, hp1, hsw, hc2, hp2] at h
          | ok v2res =>
            obtain ⟨hres1, htr1⟩ := eqfv_ok_results hp1
            obtain ⟨hres2, htr2⟩ := eqfv_ok_results hp2
            subst hres1
            subst hres2
            refine ⟨[Event.startDb, Event.connect 1, Event.selectVersion 1,
              Event.createTables, Event.getQueries],
              [Event.closeConn 1, Event.switchVersion, Event.connect 2,
                Event.selectVersion 2, Event.defineVersion],
              [Event.buildReport, Event.publishReport, Event.closeConn 2, Event.stopDb], ?_⟩
            simp [evaluate, evalBody, hc1, hp1, hsw, hc2, hp2, htr1, htr2]

/-- C10 witness: the fully successful single-query scenario. -/
theorem C10_positional_pairing_witness :
    (∃ pre mid post,
      (evaluate envOk).1 =
        pre ++ envOk.queries.map (Event.evalQuery 1) ++ mid ++
          envOk.queries.map (Event.evalQuery 2) ++
          (pairForReport envOk.queries envOk.queries).map
            (fun p => Event.addQuery p.1 p.2) ++
          post) ∧
    (∀ (v1res v2res : List Nat) (i a b : Nat),
      v1res.get? i = some a → v2res.get? i = some b →
      (pairForReport v1res v2res).get? i = some (a, b)) ∧
    (∀ (v1res v2res : List Nat) (i : Nat),
      v1res.length ≤ i ∨ v2res.length ≤ i →
      (pairForReport v1res v2res).get? i = none) :=
  C10_positional_pairing envOk (by decide)

end Taqo

namespace Taqo

theorem runSlots_all_ok (runs : Nat → RunOutcome) (hok : ∀ k, runs k ≠ RunOutcome.err) :
    ∀ r k, (runSlots runs k r).1 = r ∧ (runSlots runs k r).2.1.length = r ∧
      (runSlots runs k r).2.2 = false := by
  intro r
  induction r with
  | zero =>
    intro k
    simp [runSlots]
  | succ n ih =>
    intro k
    cases hk : runs k with
    | err => exact absurd hk (hok k)
    | ok t =>
      obtain ⟨ha, hb, hc⟩ := ih (k + 1)
      simp [runSlots, hk, ha, hb, hc]

theorem runSlots_length_le (runs : Nat → RunOutcome) :
    ∀ r k, (runSlots runs k r).2.1.length ≤ r := by
  intro r
  induction r with
  | zero =>
    intro k
    simp [runSlots]
  | succ n ih =>
    intro k
    cases hk : runs k with
    | ok t =>
      simpa [runSlots, hk] using ih (k + 1)
    | err =>
      cases hk2 : runs (k + 1) with
      | ok t => simpa [runSlots, hk, hk2] using ih (k + 2)
      | err => simp [runSlots, hk, hk2]

theorem runSlots_not_failed (runs : Nat → RunOutcome) :
    ∀ r k, (runSlots runs k r).2.2 = false →
      (runSlots runs k r).2.1.length = r ∧
      (runSlots runs k r).1 = r + errCount runs k ((runSlots runs k r).1) := by
  intro r
  induction r with
  | zero =>
    intro k _
    simp [runSlots, errCount]
  | succ n ih =>
    intro k hf
    cases hk : runs k with
    | ok t =>
      have hf2 : (runSlots runs (k + 1) n).2.2 = false := by
        simpa [runSlots, hk] using hf
      obtain ⟨h1, h2⟩ := ih (k + 1) hf2
      have hsplit : ∀ m : Nat, errCount runs k (m + 1) = errCount runs (k + 1) m := by
        intro m
        simp [errCount, hk]
      constructor
      · simp [runSlots, hk, h1]
      · simp only [runSlots, hk]
        simp only [hsplit]
        omega
    | err =>
      cases hk2 : runs (k + 1) with
      | ok t =>
        have hf2 : (runSlots runs (k + 2) n).2.2 = false := by
          simpa [runSlots, hk, hk2] using hf
        obtain ⟨h1, h2⟩ := ih (k + 2) hf2
        have hsplit : ∀ m : Nat, errCount runs k (m + 2) = 1 + errCount runs (k + 2) m := by
          intro m
          have hm : m + 2 = m + 1 + 1 := rfl
          rw [hm]
          simp [errCount, hk, hk2]
        constructor
        · simp [runSlots, hk, hk2, h1]
        · simp only [runSlots, hk, hk2]
          simp only [hsplit]
          omega
      | err =>
        simp [runSlots, hk, hk2] at hf

theorem runSlots_failed_length_lt (runs : Nat → RunOutcome) :
    ∀ r k, (runSlots runs k r).2.2 = true → (runSlots runs k r).2.1.length < r := by
  intro r
  induction r with
  | zero =>
    intro k h
    simp [runSlots] at h
  | succ n ih =>
    intro k hf
    cases hk : runs k with
    | ok t =>
      have hf2 : (runSlots runs (k + 1) n).2.2 = true := by
        simpa [runSlots, hk] using hf
      have := ih (k + 1) hf2
      simp [runSlots, hk]
      omega
    | err =>
      cases hk2 : runs (k + 1) with
      | ok t =>
        have hf2 : (runSlots runs (k + 2) n).2.2 = true := by
          simpa [runSlots, hk, hk2] using hf
        have := ih (k + 2) hf2
        simp [runSlots, hk, hk2]
        omega
      | err => simp [runSlots, hk, hk2]

/-- C3 counterexample: with w = 1 warmup and r = 2 retries, a stream whose
second physical execution errs (and is retried successfully) makes the
collector issue 4 timed executions, not w + r = 3, while still retaining
exactly 2 samples and not failing: the retry adds an execution beyond
w + r, refuting the exactly-w-plus-r count. -/
theorem C3_counterexample :
    (collect 1 2 c3runs).issued = 4 ∧
    (collect 1 2 c3runs).issued ≠ 1 + 2 ∧
    (collect 1 2 c3runs).retained.length = 2 ∧
    (collect 1 2 c3runs).failed = false := by
  refine ⟨by decide, by decide, by decide, by decide⟩

/-- C3 (amended): when every physical execution succeeds, collecting one
query issues exactly w + r timed executions, unconditionally discards the
w warmup samples (retaining exactly the r post-warmup ones) and does not
fail. For an arbitrary stream: whenever no sample fails twice (the run is
not marked failed), exactly r samples are retained and the issued count is
w + r plus the number of errored executions among those issued, so each
errored sample adds exactly one retry execution beyond w + r; when a sample
does fail twice, collection stops early with fewer than r samples; and at
most r samples are retained in every case. -/
theorem C3_warmup_discard (w r : Nat) (runs runs2 : Nat → RunOutcome)
    (hok : ∀ k, runs k ≠ RunOutcome.err) :
    ((collect w r runs).issued = w + r ∧
      (collect w r runs).retained.length = r ∧
      (collect w r runs).failed = false) ∧
    ((collect w r runs2).failed = false →
      (collect w r runs2).retained.length = r ∧
      (collect w r runs2).issued =
        w + r + errCount runs2 w ((collect w r runs2).issued - w)) ∧
    ((collect w r runs2).failed = true →
      (collect w r runs2).retained.length < r) ∧
    (collect w r runs2).retained.length ≤ r := by
  obtain ⟨ha, hb, hc⟩ := runSlots_all_ok runs hok r w
  refine ⟨⟨by simp [collect, ha], by simp [collect, hb], by simp [collect, hc]⟩,
    ?_, ?_, ?_⟩
  · intro hf
    have hf2 : (runSlots runs2 w r).2.2 = false := by
      simpa [collect] using hf
    obtain ⟨h1, h2⟩ := runSlots_not_failed runs2 r w hf2
    constructor
    · simpa [collect] using h1
    · simp only [collect, Nat.add_sub_cancel_left]
      omega
  · intro hf
    have hf2 : (runSlots runs2 w r).2.2 = true := by
      simpa [collect] using hf
    simpa [collect] using runSlots_failed_length_lt runs2 r w hf2
  · simpa [collect] using runSlots_length_le runs2 r w

/-- C3 witness: one warmup and two measurement slots, over an
all-successful stream and over the stream with one retried error. -/
theorem C3_warmup_discard_witness :
    ((collect 1 2 allOkRuns).issued = 1 + 2 ∧
      (collect 1 2 allOkRuns).retained.length = 2 ∧
      (collect 1 2 allOkRuns).failed = false) ∧
    ((collect 1 2 c3runs).failed = false →
      (collect 1 2 c3runs).retained.length = 2 ∧
      (collect 1 2 c3runs).issued =
        1 + 2 + errCount c3runs 1 ((collect 1 2 c3runs).issued - 1)) ∧
    ((collect 1 2 c3runs).failed = true →
      (collect 1 2 c3runs).retained.length < 2) ∧
    (collect 1 2 c3runs).retained.length ≤ 2 :=
  C3_warmup_discard 1 2 allOkRuns c3runs (by
    intro k
    simp [allOkRuns])

end Taqo
